import Mathlib

/-
Verification of the FaceRenderer perspective-projection program
(src/persp_proj.py) against its specification.

Modelling conventions:
- Python/numpy floating-point numbers are modelled as real numbers.
- A numpy 4x4 array is a Mathlib Matrix (Fin 4) (Fin 4) R; the numpy
  matrix-product operator corresponds to Matrix product, and the final
  matrix-vector product corresponds to Matrix.mulVec.
- Python int() truncates toward zero; pytrunc models it.
- Python list indexing accepts negative indices with wraparound and raises
  IndexError for indices out of the range [-len, len); pyGet models it,
  returning none exactly when Python raises.
- A numpy float division by a zero denominator yields inf or nan without
  raising, and the subsequent int() conversion then raises OverflowError or
  ValueError; a per-vertex computation whose homogeneous w-component is zero
  therefore raises at draw time.  projectVertex models this raised exception
  as Except.error RenderError.degenerate.
- A raised exception propagates out of the render loop and aborts the frame;
  a frame result of Except.error models this.
-/

namespace PerspProj

/-- A vertex as parsed from the vertices file: an (x, y, z) triple. -/
abbrev Vec3 : Type := ℝ × ℝ × ℝ

/-- A face as parsed from the index file: a triple of integer indices.
Python ints are unbounded and may be negative, hence Int. -/
abbrev Face : Type := ℤ × ℤ × ℤ

/-- The mesh held by the renderer after load_data: the vertices list and the
indices list, exactly as appended from the two files. -/
structure Mesh where
  vertices : List Vec3
  indices : List Face

/-- load_data, past the line-parsing boundary: every parsed (x, y, z) triple
is appended to vertices and every parsed (i1, i2, i3) triple is appended to
indices.  The source performs no validation of any kind on the parsed
triples (src/persp_proj.py lines 29-41). -/
def load_data (vs : List Vec3) (fs : List Face) : Mesh := ⟨vs, fs⟩

/-- The mutable interaction state of FaceRenderer: three rotation angles and
the zoom scalar z_val. -/
structure State where
  angle_x : ℝ
  angle_y : ℝ
  angle_z : ℝ
  z_val : ℝ

/-- The interaction state set up in FaceRenderer.__init__ (lines 22-25):
angle_x = angle_y = angle_z = 0 and z_val = 0.04. -/
def initState : State := ⟨0, 0, 0, 0.04⟩

/-- The input events consumed by the event loop (lines 130-154). -/
inductive Event where
  | keyUp | keyDown | keyLeft | keyRight | keyZ | keyX
  | scrollUp | scrollDown
  | quit

/-- The state update performed for one polled event (lines 133-154).
The quit event only clears the running flag, which is modelled separately;
it leaves the transform state unchanged. -/
noncomputable def applyEvent (e : Event) (s : State) : State :=
  match e with
  | .keyUp => { s with angle_x := s.angle_x + 0.1 }
  | .keyDown => { s with angle_x := s.angle_x - 0.1 }
  | .keyLeft => { s with angle_y := s.angle_y + 0.1 }
  | .keyRight => { s with angle_y := s.angle_y - 0.1 }
  | .keyZ => { s with angle_z := s.angle_z + 0.1 }
  | .keyX => { s with angle_z := s.angle_z - 0.1 }
  | .scrollUp =>
      { s with z_val := if s.z_val - 0.01 ≤ 0 then 0 else s.z_val - 0.01 }
  | .scrollDown => { s with z_val := s.z_val + 0.01 }
  | .quit => s

/-- Applying a sequence of polled events in delivery order. -/
noncomputable def applyEvents (evs : List Event) (s : State) : State :=
  evs.foldl (fun t e => applyEvent e t) s

/-- Python list indexing semantics: a non-negative index i reads position i
and raises IndexError (none) when i is at least the length; a negative index
i with -len ≤ i reads position len + i; any smaller index raises. -/
def pyGet {α : Type} (l : List α) (i : ℤ) : Option α :=
  if 0 ≤ i then l.get? i.toNat
  else if -(l.length : ℤ) ≤ i then l.get? ((l.length : ℤ) + i).toNat
  else none

/-- Python int() applied to a real value: truncation toward zero. -/
noncomputable def pytrunc (r : ℝ) : ℤ :=
  if 0 ≤ r then ⌊r⌋ else ⌈r⌉

/-- self.fov, set in __init__ (line 11). -/
def fov : ℝ := 90

/-- self.aspect_ratio, set in __init__ (line 12). -/
def aspect_ratio : ℝ := 1

/-- self.near, set in __init__ (line 13). -/
def near : ℝ := 0.1

/-- self.far, set in __init__ (line 14). -/
def far : ℝ := 100

/-- self.width, set in __init__ (line 17), as a real for the float
arithmetic in the screen mapping. -/
def width : ℝ := 800

/-- self.height, set in __init__ (line 17). -/
def height : ℝ := 600

/-- np.radians: degrees to radians. -/
noncomputable def np_radians (d : ℝ) : ℝ := d * (Real.pi / 180)

/-- perspective_projection_matrix (lines 43-56). -/
noncomputable def perspective_projection_matrix : Matrix (Fin 4) (Fin 4) ℝ :=
  let f := 1 / Real.tan (np_radians (fov / 2))
  !![f / aspect_ratio, 0, 0, 0;
     0, f, 0, 0;
     0, 0, (far + near) / (near - far), (2 * far * near) / (near - far);
     0, 0, -1, 0]

/-- translate_matrix (lines 58-69). -/
def translate_matrix (tx ty tz : ℝ) : Matrix (Fin 4) (Fin 4) ℝ :=
  !![1, 0, 0, tx;
     0, 1, 0, ty;
     0, 0, 1, tz;
     0, 0, 0, 1]

/-- rotate_x_matrix (lines 71-86). -/
noncomputable def rotate_x_matrix (θ : ℝ) : Matrix (Fin 4) (Fin 4) ℝ :=
  let c := Real.cos θ
  let s := Real.sin θ
  !![1, 0, 0, 0;
     0, c, -s, 0;
     0, s, c, 0;
     0, 0, 0, 1]

/-- rotate_y_matrix (lines 88-102). -/
noncomputable def rotate_y_matrix (θ : ℝ) : Matrix (Fin 4) (Fin 4) ℝ :=
  let c := Real.cos θ
  let s := Real.sin θ
  !![c, 0, s, 0;
     0, 1, 0, 0;
     -s, 0, c, 0;
     0, 0, 0, 1]

/-- rotate_z_matrix (lines 104-119). -/
noncomputable def rotate_z_matrix (θ : ℝ) : Matrix (Fin 4) (Fin 4) ℝ :=
  let c := Real.cos θ
  let s := Real.sin θ
  !![c, -s, 0, 0;
     s, c, 0, 0;
     0, 0, 1, 0;
     0, 0, 0, 1]

/-- np.array(vertex + (1,)): the homogeneous 4-vector of a vertex. -/
def homog (v : Vec3) : Fin 4 → ℝ := ![v.1, v.2.1, v.2.2, 1]

/-- The per-vertex matrix chain of the draw loop (lines 158-168 and 178-188):
projection_matrix @ translation_matrix @ rotation_matrix @ homogeneous vertex,
with rotation_matrix = rotate_x @ rotate_y @ rotate_z and a translation of
(0, 0, 10 * z_val).  The numpy chain is left-associated, so the three matrix
products happen first and the final step is a matrix-vector product. -/
noncomputable def transformVertex (s : State) (v : Vec3) : Fin 4 → ℝ :=
  (perspective_projection_matrix *
    translate_matrix 0 0 (10 * s.z_val) *
    (rotate_x_matrix s.angle_x * rotate_y_matrix s.angle_y *
      rotate_z_matrix s.angle_z)).mulVec (homog v)

/-- The runtime exceptions that can escape one frame of the draw loop. -/
inductive RenderError where
  /-- Perspective divide hit a zero w-component: the numpy division produced
  inf or nan, and the int() conversion of the screen coordinate raised. -/
  | degenerate
  /-- A face index outside [-len, len): self.vertices[i] raised IndexError. -/
  | indexError
deriving DecidableEq

/-- Drawing primitives issued to the canvas in one frame. -/
inductive Prim where
  | circle : ℤ × ℤ → Prim
  | triangle : ℤ × ℤ → ℤ × ℤ → ℤ × ℤ → Prim
deriving DecidableEq

/-- What one frame produced: the primitives drawn and the diagnostics
printed. -/
structure FrameOut where
  prims : List Prim
  diags : List String
deriving DecidableEq

/-- One vertex through perspective divide and screen mapping
(lines 168-170): divide the transformed vector by its w-component, then
x = int(ndcx * width / 2 + width / 2), y = int(ndcy * height / 2 + height / 2).
When the w-component is zero the division yields non-finite floats and the
int() conversion raises; that exception is the error result. -/
noncomputable def projectVertex (s : State) (v : Vec3) :
    Except RenderError (ℤ × ℤ) :=
  if transformVertex s v 3 = 0 then .error .degenerate
  else
    .ok (pytrunc (transformVertex s v 0 / transformVertex s v 3 * (width / 2) +
           width / 2),
         pytrunc (transformVertex s v 1 / transformVertex s v 3 * (height / 2) +
           height / 2))

/-- self.vertices[i] in the wireframe branch (lines 174-176): Python list
indexing; an out-of-range index raises IndexError. -/
def fetch (vs : List Vec3) (i : ℤ) : Except RenderError Vec3 :=
  match pyGet vs i with
  | some v => .ok v
  | none => .error .indexError

/-- List.mapM specialised to Except, written as the plain recursion the
draw loops perform: process elements left to right and let the first raised
exception abort the rest. -/
def mapExcept {α β : Type} (f : α → Except RenderError β) :
    List α → Except RenderError (List β)
  | [] => .ok []
  | a :: l =>
    match f a with
    | .error e => .error e
    | .ok b =>
      match mapExcept f l with
      | .error e => .error e
      | .ok bs => .ok (b :: bs)

/-- One face in wireframe mode (lines 173-190): fetch the three vertices
(in order, before any transform), then transform, divide and map each of
the three, then draw the closed triangle. -/
noncomputable def renderFace (s : State) (vs : List Vec3) (f : Face) :
    Except RenderError Prim := do
  let v1 ← fetch vs f.1
  let v2 ← fetch vs f.2.1
  let v3 ← fetch vs f.2.2
  let p1 ← projectVertex s v1
  let p2 ← projectVertex s v2
  let p3 ← projectVertex s v3
  pure (.triangle p1 p2 p3)

/-- The diagnostic printed each frame for an unrecognized mode (line 192). -/
def badModeMsg : String :=
  "Incorrect disply mode for object, select : points or wireframe."

/-- The mode dispatch of one frame body (lines 166-192): in points mode draw
a circle per vertex, in wireframe mode draw a triangle per face, and for any
other mode print the diagnostic and draw nothing.  An error result models a
Python exception escaping the frame. -/
noncomputable def renderFrame (mode : String) (m : Mesh) (s : State) :
    Except RenderError FrameOut :=
  if mode = "points" then do
    let ps ← mapExcept (projectVertex s) m.vertices
    pure ⟨ps.map Prim.circle, []⟩
  else if mode = "wireframe" then do
    let ts ← mapExcept (renderFace s m.vertices) m.indices
    pure ⟨ts, []⟩
  else .ok ⟨[], [badModeMsg]⟩

/-- The render loop (lines 129-196), one entry of the outer list per tick:
drain and apply that tick's events, then render the frame body.  Loop
termination by the quit event is handled outside this state evolution; an
exception in any frame aborts the loop with that error. -/
noncomputable def runLoop (mode : String) (m : Mesh) :
    State → List (List Event) → Except RenderError (List FrameOut)
  | _, [] => .ok []
  | s, evs :: rest => do
      let fr ← renderFrame mode m (applyEvents evs s)
      let frs ← runLoop mode m (applyEvents evs s) rest
      pure (fr :: frs)

/-- The upper-left 3x3 block of a 4x4 matrix. -/
def block3 (M : Matrix (Fin 4) (Fin 4) ℝ) : Matrix (Fin 3) (Fin 3) ℝ :=
  !![M 0 0, M 0 1, M 0 2;
     M 1 0, M 1 1, M 1 2;
     M 2 0, M 2 1, M 2 2]

/-! Theorems. -/

/-- rotate_x_matrix reduces to the identity at angle 0. -/
theorem rotate_x_matrix_zero : rotate_x_matrix 0 = 1 := by
  unfold rotate_x_matrix
  ext i j
  fin_cases i <;> fin_cases j <;>
    simp [Matrix.one_apply, Matrix.vecHead, Matrix.vecTail]

/-- rotate_y_matrix reduces to the identity at angle 0. -/
theorem rotate_y_matrix_zero : rotate_y_matrix 0 = 1 := by
  unfold rotate_y_matrix
  ext i j
  fin_cases i <;> fin_cases j <;>
    simp [Matrix.one_apply, Matrix.vecHead, Matrix.vecTail]

/-- rotate_z_matrix reduces to the identity at angle 0. -/
theorem rotate_z_matrix_zero : rotate_z_matrix 0 = 1 := by
  unfold rotate_z_matrix
  ext i j
  fin_cases i <;> fin_cases j <;>
    simp [Matrix.one_apply, Matrix.vecHead, Matrix.vecTail]

/-- translate_matrix reduces to the identity at offset (0, 0, 0). -/
theorem translate_matrix_zero : translate_matrix 0 0 0 = 1 := by
  unfold translate_matrix
  ext i j
  fin_cases i <;> fin_cases j <;>
    simp [Matrix.one_apply, Matrix.vecHead, Matrix.vecTail]

/-- With zero angles and zero zoom the whole chain is the projection
matrix alone. -/
theorem transformVertex_id_state (v : Vec3) :
    transformVertex ⟨0, 0, 0, 0⟩ v =
      perspective_projection_matrix.mulVec (homog v) := by
  unfold transformVertex
  norm_num [rotate_x_matrix_zero, rotate_y_matrix_zero, rotate_z_matrix_zero,
    translate_matrix_zero]

/-- The origin vertex, with zero angles and zero zoom, transforms to a
vector whose homogeneous w-component is zero. -/
theorem tv_origin :
    transformVertex ⟨0, 0, 0, 0⟩ ((0, 0, 0) : Vec3) 3 = 0 := by
  rw [transformVertex_id_state]
  simp [perspective_projection_matrix, homog, Matrix.mulVec, Matrix.dotProduct,
    Fin.sum_univ_four, Matrix.vecHead, Matrix.vecTail]

/-- The vertex (0, 0, 5), with zero angles and zero zoom, transforms to
(0, 0, z, -5) for the appropriate depth z. -/
theorem tv_axis_vertex :
    transformVertex ⟨0, 0, 0, 0⟩ ((0, 0, 5) : Vec3) =
      ![0, 0, (far + near) / (near - far) * 5 + 2 * far * near / (near - far),
        -5] := by
  rw [transformVertex_id_state]
  funext i
  fin_cases i <;>
    simp [perspective_projection_matrix, homog, Matrix.mulVec,
      Matrix.dotProduct, Fin.sum_univ_four, Matrix.vecHead, Matrix.vecTail]

/-- One event keeps z_val non-negative. -/
theorem z_val_nonneg_step (e : Event) (s : State) (h : 0 ≤ s.z_val) :
    0 ≤ (applyEvent e s).z_val := by
  cases e <;> simp only [applyEvent] <;> try exact h
  · split_ifs with h1
    · exact le_refl 0
    · linarith
  · linarith

/-- A sequence of events keeps z_val non-negative. -/
theorem z_val_nonneg_events (evs : List Event) (s : State) (h : 0 ≤ s.z_val) :
    0 ≤ (applyEvents evs s).z_val := by
  induction evs generalizing s with
  | nil => exact h
  | cons e t ih =>
      simp only [applyEvents, List.foldl_cons] at *
      exact ih (applyEvent e s) (z_val_nonneg_step e s h)

/-- n scroll-down events add n * 0.01 to z_val. -/
theorem z_val_scrollDown_replicate (n : ℕ) (s : State) :
    (applyEvents (List.replicate n .scrollDown) s).z_val =
      s.z_val + n * 0.01 := by
  induction n generalizing s with
  | zero => simp [applyEvents]
  | succ k ih =>
      have : List.replicate (k + 1) Event.scrollDown =
          Event.scrollDown :: List.replicate k Event.scrollDown := rfl
      rw [this]
      simp only [applyEvents, List.foldl_cons] at *
      rw [ih]
      simp [applyEvent]
      ring

/-- Claim C3: at startup all three rotation angles are zero and the zoom
scalar is zero.  This is false: __init__ sets z_val to 0.04, not 0. -/
theorem c3_counterexample :
    ¬ (initState.angle_x = 0 ∧ initState.angle_y = 0 ∧
        initState.angle_z = 0 ∧ initState.z_val = 0) := by
  intro h
  have hz := h.2.2.2
  norm_num [initState] at hz

/-- Claim C3, amended: at startup the three rotation angles are zero and
the zoom scalar z_val is 0.04. -/
theorem c3_init_state :
    initState.angle_x = 0 ∧ initState.angle_y = 0 ∧
      initState.angle_z = 0 ∧ initState.z_val = 0.04 := by
  refine ⟨rfl, rfl, rfl, rfl⟩

/-- Claim C6: for zoom z at least 0, scroll-up updates z_val to
max 0 (z - 0.01) and scroll-down to z + 0.01; starting from z_val = 0 no
event sequence drives z_val below 0; and z_val has no upper bound. -/
theorem c6_zoom :
    (∀ s : State, 0 ≤ s.z_val →
        (applyEvent .scrollUp s).z_val = max 0 (s.z_val - 0.01) ∧
        (applyEvent .scrollDown s).z_val = s.z_val + 0.01) ∧
    (∀ (s : State) (evs : List Event), s.z_val = 0 →
        0 ≤ (applyEvents evs s).z_val) ∧
    (∀ (s : State) (B : ℝ), ∃ evs : List Event,
        B < (applyEvents evs s).z_val) := by
  refine ⟨fun s h => ⟨?_, rfl⟩, fun s evs h0 => ?_, fun s B => ?_⟩
  · simp only [applyEvent]
    split_ifs with h1
    · exact (max_eq_left (by linarith)).symm
    · exact (max_eq_right (by linarith)).symm
  · exact z_val_nonneg_events evs s (le_of_eq h0.symm)
  · obtain ⟨n, hn⟩ := exists_nat_gt ((B - s.z_val) / 0.01)
    refine ⟨List.replicate n .scrollDown, ?_⟩
    rw [z_val_scrollDown_replicate]
    have h01 : (0:ℝ) < 0.01 := by norm_num
    have := (div_lt_iff₀ h01).mp hn
    linarith

/-- Bind of an ok value in the Except monad. -/
theorem except_bind_ok {α β : Type} (a : α) (f : α → Except RenderError β) :
    (Except.ok a >>= f) = f a := rfl

/-- Bind of an error in the Except monad. -/
theorem except_bind_error {α β : Type} (e : RenderError)
    (f : α → Except RenderError β) :
    ((Except.error e : Except RenderError α) >>= f) = .error e := rfl

/-- Map over an ok value in the Except monad. -/
theorem except_map_ok {α β : Type} (g : α → β) (a : α) :
    (g <$> (Except.ok a : Except RenderError α)) = .ok (g a) := rfl

/-- Map over an error in the Except monad. -/
theorem except_map_error {α β : Type} (g : α → β) (e : RenderError) :
    (g <$> (Except.error e : Except RenderError α)) = .error e := rfl

/-- A vertex raises at the perspective divide exactly when its transformed
w-component is zero. -/
theorem projectVertex_error_iff (s : State) (v : Vec3) :
    projectVertex s v = .error .degenerate ↔ transformVertex s v 3 = 0 := by
  unfold projectVertex
  split_ifs with h
  · simp [h]
  · simp [h]

/-- A vertex projection never raises an indexing fault. -/
theorem projectVertex_ne_indexError (s : State) (v : Vec3) :
    projectVertex s v ≠ .error .indexError := by
  unfold projectVertex
  split_ifs <;> simp

/-- If some vertex of the list has w-component zero, the points loop raises
the degenerate error. -/
theorem mapExcept_points_degenerate (s : State) (vs : List Vec3) (v : Vec3)
    (hv : v ∈ vs) (h : transformVertex s v 3 = 0) :
    mapExcept (projectVertex s) vs = .error .degenerate := by
  induction vs with
  | nil => cases hv
  | cons a t ih =>
      by_cases ha : transformVertex s a 3 = 0
      · have hea : projectVertex s a = .error .degenerate :=
          (projectVertex_error_iff s a).mpr ha
        simp [mapExcept, hea]
      · have hne : projectVertex s a ≠ .error .degenerate :=
          fun hc => ha ((projectVertex_error_iff s a).mp hc)
        have hvt : v ∈ t := by
          rcases List.mem_cons.mp hv with h1 | h1
          · exact absurd (h1 ▸ h) ha
          · exact h1
        rcases hpa : projectVertex s a with e | p
        · cases e
          · exact absurd hpa hne
          · exact absurd hpa (projectVertex_ne_indexError s a)
        · simp [mapExcept, hpa, ih hvt]

/-- The points loop never raises an indexing fault. -/
theorem mapExcept_no_indexError (s : State) (vs : List Vec3) :
    mapExcept (projectVertex s) vs ≠ .error .indexError := by
  induction vs with
  | nil => simp [mapExcept]
  | cons a t ih =>
      rcases hpa : projectVertex s a with e | p
      · cases e
        · simp [mapExcept, hpa]
        · exact absurd hpa (projectVertex_ne_indexError s a)
      · rcases hmt : mapExcept (projectVertex s) t with e2 | ps
        · have h2 : e2 ≠ .indexError := by
            intro hcon
            exact ih (by rw [hmt, hcon])
          simp [mapExcept, hpa, hmt, h2]
        · simp [mapExcept, hpa, hmt]

/-- A points frame is the points loop with circles drawn on success. -/
theorem renderFrame_points_frame (m : Mesh) (s : State) :
    renderFrame "points" m s =
      (mapExcept (projectVertex s) m.vertices).map
        (fun ps => ⟨ps.map Prim.circle, []⟩) := by
  unfold renderFrame
  rw [if_pos rfl]
  rcases h : mapExcept (projectVertex s) m.vertices with e | ps
  · simp [h, except_bind_error, Except.map]
  · simp [h, except_bind_ok, Except.map]

/-- A Python index at or above the list length raises IndexError. -/
theorem pyGet_none_of_ge {α : Type} (l : List α) (i : ℤ)
    (h : (l.length : ℤ) ≤ i) : pyGet l i = none := by
  have h0 : 0 ≤ i := le_trans (Int.ofNat_nonneg l.length) h
  unfold pyGet
  rw [if_pos h0]
  exact List.get?_eq_none.mpr (by omega)

/-- A negative Python index at least -length reads the element at
length + index. -/
theorem pyGet_neg_wrap {α : Type} (l : List α) (i : ℤ)
    (h1 : -(l.length : ℤ) ≤ i) (h2 : i < 0) :
    ∃ hb : ((l.length : ℤ) + i).toNat < l.length,
      pyGet l i = some (l.get ⟨((l.length : ℤ) + i).toNat, hb⟩) := by
  have hb : ((l.length : ℤ) + i).toNat < l.length := by omega
  refine ⟨hb, ?_⟩
  unfold pyGet
  rw [if_neg (by omega), if_pos h1]
  exact List.get?_eq_get hb

/-- Fetching a vertex at an index at or above the vertex count raises. -/
theorem fetch_first_oob (vs : List Vec3) (i : ℤ)
    (h : (vs.length : ℤ) ≤ i) : fetch vs i = .error .indexError := by
  unfold fetch
  rw [pyGet_none_of_ge vs i h]

/-- A face whose first index is at or above the vertex count raises at its
first vertex fetch. -/
theorem renderFace_first_oob (s : State) (vs : List Vec3)
    (i1 i2 i3 : ℤ) (h : (vs.length : ℤ) ≤ i1) :
    renderFace s vs (i1, i2, i3) = .error .indexError := by
  unfold renderFace
  rw [fetch_first_oob vs i1 h]
  rfl

/-- A wireframe frame whose first face has an out-of-range first index
raises IndexError. -/
theorem renderFrame_wireframe_first_oob (vs : List Vec3) (fs : List Face)
    (s : State) (i1 i2 i3 : ℤ) (h : (vs.length : ℤ) ≤ i1) :
    renderFrame "wireframe" ⟨vs, (i1, i2, i3) :: fs⟩ s =
      .error .indexError := by
  unfold renderFrame
  rw [if_neg (by decide), if_pos rfl]
  have hm : mapExcept (renderFace s vs) ((i1, i2, i3) :: fs) =
      .error .indexError := by
    simp [mapExcept, renderFace_first_oob s vs i1 i2 i3 h]
  simp [hm, except_bind_error]

/-- An unrecognized mode draws nothing and prints the diagnostic. -/
theorem renderFrame_bad_mode (mode : String) (m : Mesh) (s : State)
    (h1 : mode ≠ "points") (h2 : mode ≠ "wireframe") :
    renderFrame mode m s = .ok ⟨[], [badModeMsg]⟩ := by
  unfold renderFrame
  rw [if_neg h1, if_neg h2]

/-- Under an unrecognized mode the loop never aborts: every tick returns
normally with one diagnostic and no geometry. -/
theorem runLoop_bad_mode (mode : String) (m : Mesh) (s : State)
    (evss : List (List Event)) (h1 : mode ≠ "points")
    (h2 : mode ≠ "wireframe") :
    runLoop mode m s evss =
      .ok (List.replicate evss.length ⟨[], [badModeMsg]⟩) := by
  induction evss generalizing s with
  | nil => rfl
  | cons evs rest ih =>
      unfold runLoop
      rw [renderFrame_bad_mode mode m (applyEvents evs s) h1 h2,
        except_bind_ok, ih (applyEvents evs s), except_bind_ok]
      rfl

/-- The 3x3 block of the x rotation: orthogonality both ways and unit
determinant. -/
theorem rx_block_props (θ : ℝ) :
    Matrix.transpose (block3 (rotate_x_matrix θ)) * block3 (rotate_x_matrix θ)
        = 1 ∧
    block3 (rotate_x_matrix θ) * Matrix.transpose (block3 (rotate_x_matrix θ))
        = 1 ∧
    (block3 (rotate_x_matrix θ)).det = 1 := by
  have hcs := Real.sin_sq_add_cos_sq θ
  refine ⟨?_, ?_, ?_⟩
  · ext i j
    simp only [Matrix.mul_apply, Matrix.transpose_apply, Fin.sum_univ_three]
    fin_cases i <;> fin_cases j <;>
      simp [block3, rotate_x_matrix, Matrix.one_apply, Matrix.vecHead,
        Matrix.vecTail] <;>
      nlinarith [hcs]
  · ext i j
    simp only [Matrix.mul_apply, Matrix.transpose_apply, Fin.sum_univ_three]
    fin_cases i <;> fin_cases j <;>
      simp [block3, rotate_x_matrix, Matrix.one_apply, Matrix.vecHead,
        Matrix.vecTail] <;>
      nlinarith [hcs]
  · rw [Matrix.det_fin_three]
    simp [block3, rotate_x_matrix, Matrix.vecHead, Matrix.vecTail]
    nlinarith [hcs]

/-- The 3x3 block of the y rotation: orthogonality both ways and unit
determinant. -/
theorem ry_block_props (θ : ℝ) :
    Matrix.transpose (block3 (rotate_y_matrix θ)) * block3 (rotate_y_matrix θ)
        = 1 ∧
    block3 (rotate_y_matrix θ) * Matrix.transpose (block3 (rotate_y_matrix θ))
        = 1 ∧
    (block3 (rotate_y_matrix θ)).det = 1 := by
  have hcs := Real.sin_sq_add_cos_sq θ
  refine ⟨?_, ?_, ?_⟩
  · ext i j
    simp only [Matrix.mul_apply, Matrix.transpose_apply, Fin.sum_univ_three]
    fin_cases i <;> fin_cases j <;>
      simp [block3, rotate_y_matrix, Matrix.one_apply, Matrix.vecHead,
        Matrix.vecTail] <;>
      nlinarith [hcs]
  · ext i j
    simp only [Matrix.mul_apply, Matrix.transpose_apply, Fin.sum_univ_three]
    fin_cases i <;> fin_cases j <;>
      simp [block3, rotate_y_matrix, Matrix.one_apply, Matrix.vecHead,
        Matrix.vecTail] <;>
      nlinarith [hcs]
  · rw [Matrix.det_fin_three]
    simp [block3, rotate_y_matrix, Matrix.vecHead, Matrix.vecTail]
    nlinarith [hcs]

/-- The 3x3 block of the z rotation: orthogonality both ways and unit
determinant. -/
theorem rz_block_props (θ : ℝ) :
    Matrix.transpose (block3 (rotate_z_matrix θ)) * block3 (rotate_z_matrix θ)
        = 1 ∧
    block3 (rotate_z_matrix θ) * Matrix.transpose (block3 (rotate_z_matrix θ))
        = 1 ∧
    (block3 (rotate_z_matrix θ)).det = 1 := by
  have hcs := Real.sin_sq_add_cos_sq θ
  refine ⟨?_, ?_, ?_⟩
  · ext i j
    simp only [Matrix.mul_apply, Matrix.transpose_apply, Fin.sum_univ_three]
    fin_cases i <;> fin_cases j <;>
      simp [block3, rotate_z_matrix, Matrix.one_apply, Matrix.vecHead,
        Matrix.vecTail] <;>
      nlinarith [hcs]
  · ext i j
    simp only [Matrix.mul_apply, Matrix.transpose_apply, Fin.sum_univ_three]
    fin_cases i <;> fin_cases j <;>
      simp [block3, rotate_z_matrix, Matrix.one_apply, Matrix.vecHead,
        Matrix.vecTail] <;>
      nlinarith [hcs]
  · rw [Matrix.det_fin_three]
    simp [block3, rotate_z_matrix, Matrix.vecHead, Matrix.vecTail]
    nlinarith [hcs]

/-- Claim C7: each axis rotation matrix is orthogonal in its 3x3 block
(the transpose is a two-sided inverse, so it equals the matrix inverse),
has determinant 1 there, and equals the 4x4 identity at angle 0. -/
theorem c7_rotations_orthogonal (θ : ℝ) :
    (rotate_x_matrix 0 = 1 ∧ rotate_y_matrix 0 = 1 ∧ rotate_z_matrix 0 = 1) ∧
    (Matrix.transpose (block3 (rotate_x_matrix θ)) * block3 (rotate_x_matrix θ)
        = 1 ∧
      (block3 (rotate_x_matrix θ))⁻¹ =
        Matrix.transpose (block3 (rotate_x_matrix θ)) ∧
      (block3 (rotate_x_matrix θ)).det = 1) ∧
    (Matrix.transpose (block3 (rotate_y_matrix θ)) * block3 (rotate_y_matrix θ)
        = 1 ∧
      (block3 (rotate_y_matrix θ))⁻¹ =
        Matrix.transpose (block3 (rotate_y_matrix θ)) ∧
      (block3 (rotate_y_matrix θ)).det = 1) ∧
    (Matrix.transpose (block3 (rotate_z_matrix θ)) * block3 (rotate_z_matrix θ)
        = 1 ∧
      (block3 (rotate_z_matrix θ))⁻¹ =
        Matrix.transpose (block3 (rotate_z_matrix θ)) ∧
      (block3 (rotate_z_matrix θ)).det = 1) := by
  obtain ⟨hxl, hxr, hxd⟩ := rx_block_props θ
  obtain ⟨hyl, hyr, hyd⟩ := ry_block_props θ
  obtain ⟨hzl, hzr, hzd⟩ := rz_block_props θ
  exact ⟨⟨rotate_x_matrix_zero, rotate_y_matrix_zero, rotate_z_matrix_zero⟩,
    ⟨hxl, Matrix.inv_eq_right_inv hxr, hxd⟩,
    ⟨hyl, Matrix.inv_eq_right_inv hyr, hyd⟩,
    ⟨hzl, Matrix.inv_eq_right_inv hzr, hzd⟩⟩

/-- Claim C6 at concrete inputs: scroll-up from the startup state, the empty
event sequence from a zero-zoom state, and exceeding the bound 5. -/
theorem c6_zoom_witness :
    (applyEvent .scrollUp initState).z_val = max 0 (0.04 - 0.01) ∧
    0 ≤ (applyEvents [.scrollDown] ⟨0, 0, 0, 0⟩).z_val ∧
    ∃ evs : List Event, 5 < (applyEvents evs ⟨0, 0, 0, 0⟩).z_val := by
  refine ⟨?_, ?_, ?_⟩
  · have h := (c6_zoom.1 initState (by norm_num [initState])).1
    simpa [initState] using h
  · exact c6_zoom.2.1 ⟨0, 0, 0, 0⟩ [.scrollDown] rfl
  · exact c6_zoom.2.2 ⟨0, 0, 0, 0⟩ 5

/-- Claim C1: a vertex whose transformed w-component is zero is skipped and
drawn around, with no fault.  This is false: the code divides
unconditionally, and at the origin vertex with zero angles and zero zoom
(where w is 0) the points frame aborts with the degenerate fault instead of
skipping the point. -/
theorem c1_counterexample :
    transformVertex ⟨0, 0, 0, 0⟩ ((0, 0, 0) : Vec3) 3 = 0 ∧
    renderFrame "points" ⟨[((0, 0, 0) : Vec3)], []⟩ ⟨0, 0, 0, 0⟩ =
      .error .degenerate := by
  refine ⟨tv_origin, ?_⟩
  rw [renderFrame_points_frame,
    mapExcept_points_degenerate ⟨0, 0, 0, 0⟩ _ _ (by simp) tv_origin]
  rfl

/-- Claim C1, amended: there is no guard on the w-component.  A vertex with
transformed w-component zero makes the perspective divide produce non-finite
values, the integer conversion raises, and a points frame containing such a
vertex aborts with that fault; the vertex is not skipped. -/
theorem c1_divide_not_guarded (s : State) (vs : List Vec3) (fs : List Face)
    (v : Vec3) (hv : v ∈ vs) (h : transformVertex s v 3 = 0) :
    projectVertex s v = .error .degenerate ∧
    renderFrame "points" ⟨vs, fs⟩ s = .error .degenerate := by
  refine ⟨(projectVertex_error_iff s v).mpr h, ?_⟩
  rw [renderFrame_points_frame, mapExcept_points_degenerate s vs v hv h]
  rfl

/-- Claim C1 amended, at the concrete degenerate input. -/
theorem c1_divide_not_guarded_witness :
    projectVertex ⟨0, 0, 0, 0⟩ ((0, 0, 0) : Vec3) = .error .degenerate ∧
    renderFrame "points" ⟨[((0, 0, 0) : Vec3)], []⟩ ⟨0, 0, 0, 0⟩ =
      .error .degenerate :=
  c1_divide_not_guarded ⟨0, 0, 0, 0⟩ [((0, 0, 0) : Vec3)] []
    ((0, 0, 0) : Vec3) (by simp) tv_origin

/-- Claim C2: loading validates face indices against the vertex count and
raises a ValidationError before rendering.  This is false: load_data stores
the parsed triples unchanged (it has no failure path at all past parsing),
and with 3 vertices and the face (5, 0, 1) the wireframe draw loop raises a
runtime IndexError. -/
theorem c2_counterexample :
    load_data [((0:ℝ), 0, 0), (1, 0, 0), (0, 1, 0)] [(5, 0, 1)] =
      ⟨[((0:ℝ), 0, 0), (1, 0, 0), (0, 1, 0)], [(5, 0, 1)]⟩ ∧
    renderFrame "wireframe"
        (load_data [((0:ℝ), 0, 0), (1, 0, 0), (0, 1, 0)] [(5, 0, 1)])
        initState = .error .indexError := by
  refine ⟨rfl, ?_⟩
  exact renderFrame_wireframe_first_oob _ [] initState 5 0 1 (by norm_num)

/-- Claim C2, amended: loading performs no validation of face indices; a
face index at or above the vertex count is stored as-is and only surfaces in
the wireframe draw loop, where the vertex fetch raises a runtime
IndexError. -/
theorem c2_no_load_validation (vs : List Vec3) (fs : List Face) (s : State)
    (i1 i2 i3 : ℤ) (h : (vs.length : ℤ) ≤ i1) :
    load_data vs ((i1, i2, i3) :: fs) = ⟨vs, (i1, i2, i3) :: fs⟩ ∧
    renderFrame "wireframe" (load_data vs ((i1, i2, i3) :: fs)) s =
      .error .indexError :=
  ⟨rfl, renderFrame_wireframe_first_oob vs fs s i1 i2 i3 h⟩

/-- Claim C2 amended, at a concrete out-of-range face. -/
theorem c2_no_load_validation_witness :
    load_data [((0:ℝ), 0, 0), (1, 2, 3)] [(7, 0, 0)] =
      ⟨[((0:ℝ), 0, 0), (1, 2, 3)], [(7, 0, 0)]⟩ ∧
    renderFrame "wireframe" (load_data [((0:ℝ), 0, 0), (1, 2, 3)] [(7, 0, 0)])
      initState = .error .indexError :=
  c2_no_load_validation [((0:ℝ), 0, 0), (1, 2, 3)] [] initState 7 0 0
    (by norm_num)

/-- Claim C4: the per-vertex transform is the single composed matrix
Projection * Translation(0,0,10*zoom) * (Rx * Ry * Rz) applied to the
homogeneous vector, which by associativity is rotation applied to the
point first, then translation, then projection. -/
theorem c4_matrix_order (s : State) (v : Vec3) :
    transformVertex s v =
      (perspective_projection_matrix *
        (translate_matrix 0 0 (10 * s.z_val) *
          (rotate_x_matrix s.angle_x * rotate_y_matrix s.angle_y *
            rotate_z_matrix s.angle_z))).mulVec (homog v) ∧
    transformVertex s v =
      perspective_projection_matrix.mulVec
        ((translate_matrix 0 0 (10 * s.z_val)).mulVec
          ((rotate_x_matrix s.angle_x * rotate_y_matrix s.angle_y *
            rotate_z_matrix s.angle_z).mulVec (homog v))) := by
  unfold transformVertex
  constructor
  · rw [mul_assoc]
  · rw [Matrix.mulVec_mulVec, Matrix.mulVec_mulVec]

/-- Claim C5: with the session constants fov 90, aspect 1, near 0.1,
far 100 and the 800 by 600 canvas, zero angles and zero zoom project the
vertex (0, 0, 5) to the exact canvas center (400, 300). -/
theorem c5_axis_vertex_center :
    fov = 90 ∧ aspect_ratio = 1 ∧ near = 0.1 ∧ far = 100 ∧
    width = 800 ∧ height = 600 ∧
    projectVertex ⟨0, 0, 0, 0⟩ ((0, 0, 5) : Vec3) = .ok (400, 300) := by
  refine ⟨rfl, rfl, rfl, rfl, rfl, rfl, ?_⟩
  unfold projectVertex
  rw [tv_axis_vertex]
  norm_num [pytrunc, width, height]

/-- Claim C8: any display mode other than points and wireframe makes every
frame return normally with no geometry and one diagnostic, and the render
loop keeps running for any number of ticks. -/
theorem c8_unrecognized_mode (mode : String) (m : Mesh) (s : State)
    (evss : List (List Event)) (h1 : mode ≠ "points")
    (h2 : mode ≠ "wireframe") :
    renderFrame mode m s = .ok ⟨[], [badModeMsg]⟩ ∧
    runLoop mode m s evss =
      .ok (List.replicate evss.length ⟨[], [badModeMsg]⟩) :=
  ⟨renderFrame_bad_mode mode m s h1 h2, runLoop_bad_mode mode m s evss h1 h2⟩

/-- Claim C8 at the concrete mode string triangles over two ticks. -/
theorem c8_unrecognized_mode_witness :
    renderFrame "triangles" ⟨[], []⟩ initState = .ok ⟨[], [badModeMsg]⟩ ∧
    runLoop "triangles" ⟨[], []⟩ initState [[], []] =
      .ok [⟨[], [badModeMsg]⟩, ⟨[], [badModeMsg]⟩] := by
  have h := c8_unrecognized_mode "triangles" ⟨[], []⟩ initState [[], []]
    (by decide) (by decide)
  simpa [List.replicate] using h

/-- Claim C9: a points frame never reads the face list: it is identical for
any two face lists over the same vertices and state, and it can never raise
an indexing fault. -/
theorem c9_points_independent_of_indices (vs : List Vec3)
    (fs1 fs2 : List Face) (s : State) :
    renderFrame "points" ⟨vs, fs1⟩ s = renderFrame "points" ⟨vs, fs2⟩ s ∧
    renderFrame "points" ⟨vs, fs1⟩ s ≠ .error .indexError := by
  constructor
  · rw [renderFrame_points_frame, renderFrame_points_frame]
  · rw [renderFrame_points_frame]
    rcases h : mapExcept (projectVertex s) vs with e | ps
    · have he : e ≠ .indexError :=
        fun hc => mapExcept_no_indexError s vs (by rw [h, hc])
      simp [Except.map, he]
    · simp [Except.map]

/-- Claim C9 at concrete inputs with wildly different face lists. -/
theorem c9_points_independent_witness :
    renderFrame "points" ⟨[], []⟩ initState =
      renderFrame "points" ⟨[], [(9, 9, 9)]⟩ initState ∧
    renderFrame "points" ⟨[], []⟩ initState ≠ .error .indexError :=
  c9_points_independent_of_indices [] [] [(9, 9, 9)] initState

/-- Claim C10: a face index i with -vertexCount <= i < 0 raises nothing at
load time or draw time; the draw-time vertex fetch resolves to the vertex
at position vertexCount + i. -/
theorem c10_negative_index_wraps (vs : List Vec3) (fs : List Face) (i : ℤ)
    (h1 : -(vs.length : ℤ) ≤ i) (h2 : i < 0) :
    load_data vs fs = ⟨vs, fs⟩ ∧
    ∃ hb : ((vs.length : ℤ) + i).toNat < vs.length,
      fetch vs i = .ok (vs.get ⟨((vs.length : ℤ) + i).toNat, hb⟩) := by
  obtain ⟨hb, hg⟩ := pyGet_neg_wrap vs i h1 h2
  refine ⟨rfl, hb, ?_⟩
  unfold fetch
  rw [hg]

/-- Claim C10 at the concrete index -1 over three vertices: the fetch
succeeds and yields the third (last) vertex. -/
theorem c10_negative_index_wraps_witness :
    fetch [((0:ℝ), 0, 0), (1, 0, 0), (0, 1, 0)] (-1) = .ok ((0:ℝ), 1, 0) := by
  obtain ⟨-, hb, hf⟩ := c10_negative_index_wraps
    [((0:ℝ), 0, 0), (1, 0, 0), (0, 1, 0)] [] (-1) (by norm_num) (by norm_num)
  exact hf

end PerspProj
